import Mathlib

set_option maxHeartbeats 2000000

/-!
Shallow embedding of the host-side WASM bridge of aleo-utils-go.

The repository contains two variants of the session implementation:
the string-key variant (session.go) and the byte-key variant (the unnamed
source file).  Both are embedded below, in the namespaces SessionStr and
SessionByte respectively.  The WASM guest itself is opaque to the host, so
every operation is parametrised by a Guest oracle: a record of functions
giving the outcome of each guest interaction (allocate, deallocate, an
exported entry point call, a linear-memory write, a linear-memory read).
Each operation returns its Go result values (a cleared result is modelled
as none), the guest state after the call, and the ordered trace of guest
interactions performed, including the deferred deallocations that Go runs
on every exit path (in LIFO order, as Go does).
-/

/-- PRIVATE_KEY_SIZE from wrapper.go. -/
def PRIVATE_KEY_SIZE : Nat := 59

/-- ADDRESS_SIZE from wrapper.go. -/
def ADDRESS_SIZE : Nat := 63

/-- SIGNATURE_SIZE from wrapper.go. -/
def SIGNATURE_SIZE : Nat := 216

/-- MESSAGE_FORMAT_BLOCK_SIZE from wrapper.go (16 times 32). -/
def MESSAGE_FORMAT_BLOCK_SIZE : Nat := 512

/-- MAX_FORMAT_MESSAGE_CHUNKS from wrapper.go. -/
def MAX_FORMAT_MESSAGE_CHUNKS : Nat := 32

/-- Two to the 32: the modulus of a Go uint32 conversion. -/
def U32 : Nat := 4294967296

/-- Go error values produced by the bridge.  Structured sentinel errors get
their own constructors; errors built with errors.New or fmt.Errorf carry
their message text.  indexOutOfRange models the Go runtime error raised by
indexing an empty result slice, which the deferred recover turns into err. -/
inductive GoErr
  | noModule
  | noRuntime
  | indexOutOfRange
  | msg (s : String)
  deriving DecidableEq

/-- The payload of a Go fault intercepted by recover: a string, a value that
already is an error, or anything else. -/
inductive FaultVal
  | str (s : String)
  | err (e : GoErr)
  | other
  deriving DecidableEq

/-- The conversion the deferred recover blocks apply to a fault payload:
a text payload becomes an error with that text, an error payload passes
through unchanged, anything else becomes the generic error. -/
def recoverConv : FaultVal → GoErr
  | .str s => .msg s
  | .err e => e
  | .other => .msg "unknown panic"

/-- Outcome of invoking a guest function: a normal return carrying the list
of uint64 result words, a Go error from the invocation, or a fault. -/
inductive COut
  | ok (ws : List Nat)
  | errc (e : GoErr)
  | trap (p : FaultVal)
  deriving DecidableEq

/-- The exported guest entry points the sessions resolve (besides alloc and
dealloc, which have their own oracle fields). -/
inductive GFn
  | newPrivateKey
  | getAddress
  | sign
  | hashMessage
  | hashMessageBytes
  | formatMessage
  | recoverMessage
  deriving DecidableEq

/-- One guest interaction, as recorded in an operation trace.
For alloc, ptr is the returned pointer when the allocation call returned
normally with at least one result word, none otherwise.  For dealloc, safe
is true when the call went through the deallocateSafe helper (which always
passes hint 0) and false for the direct deallocate calls used on
guest-produced result buffers. -/
inductive Event
  | alloc (size : Nat) (ptr : Option Nat)
  | dealloc (ptr hint : Nat) (safe : Bool)
  | call (fn : GFn) (args : List Nat)
  | write (ptr : Nat) (data : List Nat) (ok : Bool)
  | read (ptr len : Nat) (ok : Bool)
  deriving DecidableEq

/-- The guest oracle.  The state type is abstract; every interaction may
depend on and update it.  A linear-memory read that succeeds returns
exactly the requested number of bytes, read from the total byte map mem
(this mirrors wazero, whose Read returns a slice of the requested length
or reports failure); readOk says whether the requested range is readable.
The outcome of a deallocate call is only ever logged by the bridge, so the
oracle returns just the successor state for it. -/
structure Guest (σ : Type) where
  allocate : σ → Nat → COut × σ
  deallocate : σ → Nat → Nat → σ
  callFn : σ → GFn → List Nat → COut × σ
  memWrite : σ → Nat → List Nat → Bool × σ
  mem : σ → Nat → Nat
  readOk : σ → Nat → Nat → Bool

/-- Read n consecutive bytes of a byte map starting at p. -/
def readList (f : Nat → Nat) (p : Nat) : Nat → List Nat
  | 0 => []
  | n + 1 => f p :: readList f (p + 1) n

/-- Store a list of bytes into a byte map at consecutive addresses from p. -/
def writeList (f : Nat → Nat) (p : Nat) : List Nat → (Nat → Nat)
  | [] => f
  | x :: xs => writeList (Function.update f p x) (p + 1) xs

/-- A pending Go defer: a plain deallocation, or the byte-key variant key
cleanup that first overwrites the region with zero bytes (ignoring the
write result) and then deallocates through deallocateSafe. -/
inductive DeferAct
  | dealloc (ptr hint : Nat) (safe : Bool)
  | zeroDealloc (ptr len : Nat)
  deriving DecidableEq

/-- Run the pending defers, in the (LIFO) order in which Go executes them,
returning the final guest state and the events they produce. -/
def runDefers {σ : Type} (g : Guest σ) : σ → List DeferAct → σ × List Event
  | s, [] => (s, [])
  | s, .dealloc p h sf :: rest =>
    let s1 := g.deallocate s p h
    let r := runDefers g s1 rest
    (r.1, .dealloc p h sf :: r.2)
  | s, .zeroDealloc p len :: rest =>
    let w := g.memWrite s p (List.replicate len 0)
    let s1 := g.deallocate w.2 p 0
    let r := runDefers g s1 rest
    (r.1, .write p (List.replicate len 0) w.1 :: .dealloc p 0 true :: r.2)

/-- Exit an operation: run the pending defers after the events so far and
attach the Go return value. -/
def withDefers {σ α : Type} (g : Guest σ) (s : σ) (pre : List Event)
    (ds : List DeferAct) (r : α) : α × σ × List Event :=
  let d := runDefers g s ds
  (r, d.1, pre ++ d.2)

/-- Byte-level model of strings.ReplaceAll(s, newline, empty): drop every
0x0A byte. -/
def stripNL (l : List Nat) : List Nat := l.filter (fun b => b != 10)

namespace SessionStr

/-- session.go NewPrivateKey.  The closed flag models mod == nil or
mod.IsClosed().  A result of none models the cleared Go zero value. -/
def newPrivateKey {σ : Type} (g : Guest σ) (closed : Bool) (s : σ) :
    (Option (List Nat) × Option (List Nat) × Option GoErr) × σ × List Event :=
  if closed then ((none, none, some .noModule), s, []) else
  match g.callFn s .newPrivateKey [] with
  | (.errc e, s1) => ((none, none, some e), s1, [.call .newPrivateKey []])
  | (.trap p, s1) => ((none, none, some (recoverConv p)), s1, [.call .newPrivateKey []])
  | (.ok [], s1) => ((none, none, some .indexOutOfRange), s1, [.call .newPrivateKey []])
  | (.ok (w :: _), s1) =>
    let ev1 : List Event := [.call .newPrivateKey []]
    if w = 0 then
      ((none, none, some (.msg "failed to create new private key")), s1, ev1)
    else
      let rOk := g.readOk s1 (w % U32) PRIVATE_KEY_SIZE
      let ev2 := ev1 ++ [.read (w % U32) PRIVATE_KEY_SIZE rOk]
      if !rOk then
        ((none, none, some (.msg "failed to create new private key")), s1, ev2)
      else
        let key := readList (g.mem s1) (w % U32) PRIVATE_KEY_SIZE
        let ds1 : List DeferAct := [.dealloc w PRIVATE_KEY_SIZE false]
        let args := [w, PRIVATE_KEY_SIZE]
        let ev3 := ev2 ++ [.call .getAddress args]
        match g.callFn s1 .getAddress args with
        | (.errc _, s2) =>
          withDefers g s2 ev3 ds1
            ((none : Option (List Nat)), (none : Option (List Nat)),
              some (GoErr.msg "failed to get address from the generated private key"))
        | (.trap p, s2) =>
          withDefers g s2 ev3 ds1
            ((none : Option (List Nat)), (none : Option (List Nat)), some (recoverConv p))
        | (.ok [], s2) =>
          withDefers g s2 ev3 ds1
            ((none : Option (List Nat)), (none : Option (List Nat)), some GoErr.indexOutOfRange)
        | (.ok (w2 :: _), s2) =>
          if w2 = 0 then
            withDefers g s2 ev3 ds1
              ((none : Option (List Nat)), (none : Option (List Nat)),
                some (GoErr.msg "internal error when getting address from the generated private key"))
          else
            let rOk2 := g.readOk s2 (w2 % U32) ADDRESS_SIZE
            let ev4 := ev3 ++ [.read (w2 % U32) ADDRESS_SIZE rOk2]
            if !rOk2 then
              withDefers g s2 ev4 ds1
                ((none : Option (List Nat)), (none : Option (List Nat)),
                  some (GoErr.msg "failed to convert generated private key to address"))
            else
              let addr := readList (g.mem s2) (w2 % U32) ADDRESS_SIZE
              withDefers g s2 ev4 (.dealloc w2 ADDRESS_SIZE false :: ds1)
                (some key, some addr, (none : Option GoErr))

/-- session.go FormatMessage. -/
def formatMessage {σ : Type} (g : Guest σ) (closed : Bool) (s : σ)
    (message : List Nat) (targetChunks : Int) :
    (Option (List Nat) × Option GoErr) × σ × List Event :=
  if closed then ((none, some .noModule), s, []) else
  if targetChunks < 1 ∨ targetChunks > (MAX_FORMAT_MESSAGE_CHUNKS : Int) then
    ((none, some (.msg "target number of chunks must be between 1 and 32")), s, []) else
  if (message.length : Int) > targetChunks * (MESSAGE_FORMAT_BLOCK_SIZE : Int) then
    ((none, some (.msg ("target formatted message length must be at most " ++
      toString (targetChunks * (MESSAGE_FORMAT_BLOCK_SIZE : Int)) ++ " (" ++
      toString targetChunks ++ " chunks)"))), s, []) else
  let msgLen := message.length
  match g.allocate s msgLen with
  | (.errc _, s1) =>
    ((none, some (.msg "failed to allocate memory for message")), s1, [.alloc msgLen none])
  | (.trap p, s1) => ((none, some (recoverConv p)), s1, [.alloc msgLen none])
  | (.ok [], s1) => ((none, some .indexOutOfRange), s1, [.alloc msgLen none])
  | (.ok (messagePtr :: _), s1) =>
    let ds1 : List DeferAct := [.dealloc messagePtr 0 true]
    let w := g.memWrite s1 (messagePtr % U32) message
    let ev2 : List Event :=
      [.alloc msgLen (some messagePtr), .write (messagePtr % U32) message w.1]
    if !w.1 then
      withDefers g w.2 ev2 ds1
        ((none : Option (List Nat)), some (GoErr.msg "failed to write message to memory for formatting"))
    else
      let args := [messagePtr, msgLen, targetChunks.toNat]
      let ev3 := ev2 ++ [.call .formatMessage args]
      match g.callFn w.2 .formatMessage args with
      | (.errc _, s3) =>
        withDefers g s3 ev3 ds1
          ((none : Option (List Nat)), some (GoErr.msg "failed to format message"))
      | (.trap p, s3) =>
        withDefers g s3 ev3 ds1 ((none : Option (List Nat)), some (recoverConv p))
      | (.ok [], s3) =>
        withDefers g s3 ev3 ds1 ((none : Option (List Nat)), some GoErr.indexOutOfRange)
      | (.ok (w0 :: _), s3) =>
        if w0 = 0 then
          withDefers g s3 ev3 ds1
            ((none : Option (List Nat)), some (GoErr.msg "invalid message"))
        else
          let strLen := w0 / U32 % U32
          let strPtr := w0 % U32
          let rOk := g.readOk s3 strPtr strLen
          let ev4 := ev3 ++ [.read strPtr strLen rOk]
          if !rOk then
            withDefers g s3 ev4 ds1
              ((none : Option (List Nat)), some (GoErr.msg "failed to convert message to a field"))
          else
            let buf := readList (g.mem s3) strPtr strLen
            withDefers g s3 ev4 (.dealloc strPtr strLen false :: ds1)
              (some (stripNL buf), (none : Option GoErr))

/-- session.go RecoverMessage. -/
def recoverMessage {σ : Type} (g : Guest σ) (closed : Bool) (s : σ)
    (formattedMessage : List Nat) :
    (Option (List Nat) × Option GoErr) × σ × List Event :=
  if closed then ((none, some .noModule), s, []) else
  let msgLen := formattedMessage.length
  match g.allocate s msgLen with
  | (.errc _, s1) =>
    ((none, some (.msg "failed to allocate memory for message")), s1, [.alloc msgLen none])
  | (.trap p, s1) => ((none, some (recoverConv p)), s1, [.alloc msgLen none])
  | (.ok [], s1) => ((none, some .indexOutOfRange), s1, [.alloc msgLen none])
  | (.ok (messagePtr :: _), s1) =>
    let ds1 : List DeferAct := [.dealloc messagePtr 0 true]
    let w := g.memWrite s1 (messagePtr % U32) formattedMessage
    let ev2 : List Event :=
      [.alloc msgLen (some messagePtr), .write (messagePtr % U32) formattedMessage w.1]
    if !w.1 then
      withDefers g w.2 ev2 ds1
        ((none : Option (List Nat)), some (GoErr.msg "failed to write message to memory for recovering"))
    else
      let args := [messagePtr, msgLen]
      let ev3 := ev2 ++ [.call .recoverMessage args]
      match g.callFn w.2 .recoverMessage args with
      | (.errc _, s3) =>
        withDefers g s3 ev3 ds1
          ((none : Option (List Nat)), some (GoErr.msg "failed to recover message"))
      | (.trap p, s3) =>
        withDefers g s3 ev3 ds1 ((none : Option (List Nat)), some (recoverConv p))
      | (.ok [], s3) =>
        withDefers g s3 ev3 ds1 ((none : Option (List Nat)), some GoErr.indexOutOfRange)
      | (.ok (w0 :: _), s3) =>
        if w0 = 0 then
          withDefers g s3 ev3 ds1
            ((none : Option (List Nat)), some (GoErr.msg "invalid message"))
        else
          let bufLen := w0 / U32 % U32
          let bufPtr := w0 % U32
          let rOk := g.readOk s3 bufPtr bufLen
          let ev4 := ev3 ++ [.read bufPtr bufLen rOk]
          if !rOk then
            withDefers g s3 ev4 ds1
              ((none : Option (List Nat)), some (GoErr.msg "failed to convert message to a field"))
          else
            let buf := readList (g.mem s3) bufPtr bufLen
            withDefers g s3 ev4 (.dealloc bufPtr bufLen false :: ds1)
              (some buf, (none : Option GoErr))

/-- session.go HashMessageToString.  The returned Go string is modelled as
its byte sequence. -/
def hashMessageToString {σ : Type} (g : Guest σ) (closed : Bool) (s : σ)
    (message : List Nat) :
    (Option (List Nat) × Option GoErr) × σ × List Event :=
  if closed then ((none, some .noModule), s, []) else
  let msgLen := message.length
  match g.allocate s msgLen with
  | (.errc _, s1) =>
    ((none, some (.msg "failed to allocate memory for message")), s1, [.alloc msgLen none])
  | (.trap p, s1) => ((none, some (recoverConv p)), s1, [.alloc msgLen none])
  | (.ok [], s1) => ((none, some .indexOutOfRange), s1, [.alloc msgLen none])
  | (.ok (messagePtr :: _), s1) =>
    let ds1 : List DeferAct := [.dealloc messagePtr 0 true]
    let w := g.memWrite s1 (messagePtr % U32) message
    let ev2 : List Event :=
      [.alloc msgLen (some messagePtr), .write (messagePtr % U32) message w.1]
    if !w.1 then
      withDefers g w.2 ev2 ds1
        ((none : Option (List Nat)), some (GoErr.msg "failed to write message to memory for hashing"))
    else
      let args := [messagePtr, msgLen]
      let ev3 := ev2 ++ [.call .hashMessage args]
      match g.callFn w.2 .hashMessage args with
      | (.errc _, s3) =>
        withDefers g s3 ev3 ds1
          ((none : Option (List Nat)), some (GoErr.msg "failed to hash message to a string representation"))
      | (.trap p, s3) =>
        withDefers g s3 ev3 ds1 ((none : Option (List Nat)), some (recoverConv p))
      | (.ok [], s3) =>
        withDefers g s3 ev3 ds1 ((none : Option (List Nat)), some GoErr.indexOutOfRange)
      | (.ok (w0 :: _), s3) =>
        if w0 = 0 then
          withDefers g s3 ev3 ds1
            ((none : Option (List Nat)), some (GoErr.msg "invalid message"))
        else
          let hashLen := w0 / U32 % U32
          let hashPtr := w0 % U32
          let rOk := g.readOk s3 hashPtr hashLen
          let ev4 := ev3 ++ [.read hashPtr hashLen rOk]
          if !rOk then
            withDefers g s3 ev4 ds1
              ((none : Option (List Nat)), some (GoErr.msg "failed to convert message to a field"))
          else
            let buf := readList (g.mem s3) hashPtr hashLen
            withDefers g s3 ev4 (.dealloc hashPtr hashLen false :: ds1)
              (some buf, (none : Option GoErr))

/-- session.go HashMessage (little-endian byte form). -/
def hashMessage {σ : Type} (g : Guest σ) (closed : Bool) (s : σ)
    (message : List Nat) :
    (Option (List Nat) × Option GoErr) × σ × List Event :=
  if closed then ((none, some .noModule), s, []) else
  let msgLen := message.length
  match g.allocate s msgLen with
  | (.errc _, s1) =>
    ((none, some (.msg "failed to allocate memory for message")), s1, [.alloc msgLen none])
  | (.trap p, s1) => ((none, some (recoverConv p)), s1, [.alloc msgLen none])
  | (.ok [], s1) => ((none, some .indexOutOfRange), s1, [.alloc msgLen none])
  | (.ok (messagePtr :: _), s1) =>
    let ds1 : List DeferAct := [.dealloc messagePtr 0 true]
    let w := g.memWrite s1 (messagePtr % U32) message
    let ev2 : List Event :=
      [.alloc msgLen (some messagePtr), .write (messagePtr % U32) message w.1]
    if !w.1 then
      withDefers g w.2 ev2 ds1
        ((none : Option (List Nat)), some (GoErr.msg "failed to write message to memory for hashing"))
    else
      let args := [messagePtr, msgLen]
      let ev3 := ev2 ++ [.call .hashMessageBytes args]
      match g.callFn w.2 .hashMessageBytes args with
      | (.errc _, s3) =>
        withDefers g s3 ev3 ds1
          ((none : Option (List Nat)), some (GoErr.msg "failed to hash message"))
      | (.trap p, s3) =>
        withDefers g s3 ev3 ds1 ((none : Option (List Nat)), some (recoverConv p))
      | (.ok [], s3) =>
        withDefers g s3 ev3 ds1 ((none : Option (List Nat)), some GoErr.indexOutOfRange)
      | (.ok (w0 :: _), s3) =>
        if w0 = 0 then
          withDefers g s3 ev3 ds1
            ((none : Option (List Nat)), some (GoErr.msg "invalid message"))
        else
          let hashLen := w0 / U32 % U32
          let hashPtr := w0 % U32
          let rOk := g.readOk s3 hashPtr hashLen
          let ev4 := ev3 ++ [.read hashPtr hashLen rOk]
          if !rOk then
            withDefers g s3 ev4 ds1
              ((none : Option (List Nat)), some (GoErr.msg "failed to convert message to a field"))
          else
            let buf := readList (g.mem s3) hashPtr hashLen
            withDefers g s3 ev4 (.dealloc hashPtr hashLen false :: ds1)
              (some buf, (none : Option GoErr))

/-- session.go Sign.  The Go key string is modelled as its byte sequence. -/
def sign {σ : Type} (g : Guest σ) (closed : Bool) (s : σ)
    (key : List Nat) (message : List Nat) :
    (Option (List Nat) × Option GoErr) × σ × List Event :=
  if closed then ((none, some .noModule), s, []) else
  if key.length ≠ PRIVATE_KEY_SIZE then
    ((none, some (.msg "invalid private key size")), s, []) else
  let msgLen := message.length
  match g.allocate s msgLen with
  | (.errc _, s1) =>
    ((none, some (.msg "failed to allocate memory for message")), s1, [.alloc msgLen none])
  | (.trap p, s1) => ((none, some (recoverConv p)), s1, [.alloc msgLen none])
  | (.ok [], s1) => ((none, some .indexOutOfRange), s1, [.alloc msgLen none])
  | (.ok (messagePtr :: _), s1) =>
    let ds1 : List DeferAct := [.dealloc messagePtr 0 true]
    let w := g.memWrite s1 (messagePtr % U32) message
    let ev2 : List Event :=
      [.alloc msgLen (some messagePtr), .write (messagePtr % U32) message w.1]
    if !w.1 then
      withDefers g w.2 ev2 ds1
        ((none : Option (List Nat)), some (GoErr.msg "failed to write formatted message to memory for signing"))
    else
      match g.allocate w.2 PRIVATE_KEY_SIZE with
      | (.errc _, s2) =>
        withDefers g s2 (ev2 ++ [.alloc PRIVATE_KEY_SIZE none]) ds1
          ((none : Option (List Nat)), some (GoErr.msg "failed to allocate memory for private key"))
      | (.trap p, s2) =>
        withDefers g s2 (ev2 ++ [.alloc PRIVATE_KEY_SIZE none]) ds1
          ((none : Option (List Nat)), some (recoverConv p))
      | (.ok [], s2) =>
        withDefers g s2 (ev2 ++ [.alloc PRIVATE_KEY_SIZE none]) ds1
          ((none : Option (List Nat)), some GoErr.indexOutOfRange)
      | (.ok (privateKeyPtr :: _), s2) =>
        let ds2 : List DeferAct := .dealloc privateKeyPtr 0 true :: ds1
        let w2 := g.memWrite s2 (privateKeyPtr % U32) key
        let ev3 := ev2 ++ [.alloc PRIVATE_KEY_SIZE (some privateKeyPtr),
          .write (privateKeyPtr % U32) key w2.1]
        if !w2.1 then
          withDefers g w2.2 ev3 ds2
            ((none : Option (List Nat)), some (GoErr.msg "failed to write private key to memory for signing"))
        else
          let args := [privateKeyPtr, PRIVATE_KEY_SIZE, messagePtr, msgLen]
          let ev4 := ev3 ++ [.call .sign args]
          match g.callFn w2.2 .sign args with
          | (.errc _, s3) =>
            withDefers g s3 ev4 ds2
              ((none : Option (List Nat)), some (GoErr.msg "failed to sign message"))
          | (.trap p, s3) =>
            withDefers g s3 ev4 ds2 ((none : Option (List Nat)), some (recoverConv p))
          | (.ok [], s3) =>
            withDefers g s3 ev4 ds2 ((none : Option (List Nat)), some GoErr.indexOutOfRange)
          | (.ok (w0 :: _), s3) =>
            if w0 = 0 then
              withDefers g s3 ev4 ds2
                ((none : Option (List Nat)), some (GoErr.msg "internal error when signing message"))
            else
              let rOk := g.readOk s3 (w0 % U32) SIGNATURE_SIZE
              let ev5 := ev4 ++ [.read (w0 % U32) SIGNATURE_SIZE rOk]
              if !rOk then
                withDefers g s3 ev5 ds2
                  ((none : Option (List Nat)), some (GoErr.msg "failed to sign message"))
              else
                let sig := readList (g.mem s3) (w0 % U32) SIGNATURE_SIZE
                withDefers g s3 ev5 (.dealloc w0 SIGNATURE_SIZE false :: ds2)
                  (some sig, (none : Option GoErr))

end SessionStr

namespace SessionByte

/-- Byte-key variant NewPrivateKey (unnamed source file).  The result word
is decoded with decodeLenPtr: pointer is the low 32 bits, length the high
32 bits.  The key region cleanup defer first overwrites the region with
zero bytes and then deallocates it. -/
def newPrivateKey {σ : Type} (g : Guest σ) (closed : Bool) (s : σ) :
    (Option (List Nat) × Option (List Nat) × Option GoErr) × σ × List Event :=
  if closed then ((none, none, some .noModule), s, []) else
  let ev1 : List Event := [.call .newPrivateKey []]
  match g.callFn s .newPrivateKey [] with
  | (.errc e, s1) => ((none, none, some e), s1, ev1)
  | (.trap p, s1) => ((none, none, some (recoverConv p)), s1, ev1)
  | (.ok [], s1) =>
    ((none, none, some (.msg "failed to create new private key: empty return")), s1, ev1)
  | (.ok (w :: _), s1) =>
    let keyPtr := w % U32
    let keyLen := w / U32 % U32
    if keyPtr = 0 ∨ keyLen = 0 then
      ((none, none, some (.msg "failed to create new private key: invalid pointer")), s1, ev1)
    else
      let ds1 : List DeferAct := [.zeroDealloc keyPtr keyLen]
      let rOk := g.readOk s1 keyPtr keyLen
      let ev2 := ev1 ++ [.read keyPtr keyLen rOk]
      if !rOk then
        withDefers g s1 ev2 ds1
          ((none : Option (List Nat)), (none : Option (List Nat)),
            some (GoErr.msg "failed to create new private key"))
      else
        let key := readList (g.mem s1) keyPtr keyLen
        let args := [keyPtr, keyLen]
        let ev3 := ev2 ++ [.call .getAddress args]
        match g.callFn s1 .getAddress args with
        | (.errc _, s2) =>
          withDefers g s2 ev3 ds1
            ((none : Option (List Nat)), (none : Option (List Nat)),
              some (GoErr.msg "failed to get address from the generated private key"))
        | (.trap p, s2) =>
          withDefers g s2 ev3 ds1
            ((none : Option (List Nat)), (none : Option (List Nat)), some (recoverConv p))
        | (.ok [], s2) =>
          withDefers g s2 ev3 ds1
            ((none : Option (List Nat)), (none : Option (List Nat)),
              some (GoErr.msg "internal error when getting address from the generated private key: empty return"))
        | (.ok (w2 :: _), s2) =>
          let addrPtr := w2 % U32
          let addrLen := w2 / U32 % U32
          if addrPtr = 0 ∨ addrLen = 0 then
            withDefers g s2 ev3 ds1
              ((none : Option (List Nat)), (none : Option (List Nat)),
                some (GoErr.msg "internal error when getting address from the generated private key"))
          else
            let ds2 : List DeferAct := .dealloc addrPtr 0 true :: ds1
            let rOk2 := g.readOk s2 addrPtr addrLen
            let ev4 := ev3 ++ [.read addrPtr addrLen rOk2]
            if !rOk2 then
              withDefers g s2 ev4 ds2
                ((none : Option (List Nat)), (none : Option (List Nat)),
                  some (GoErr.msg "failed to convert generated private key to address"))
            else
              let addr := readList (g.mem s2) addrPtr addrLen
              withDefers g s2 ev4 ds2 (some key, some addr, (none : Option GoErr))

/-- Byte-key variant Sign (unnamed source file).  The signature word is
decoded with decodeLenPtr and rejected when either field is zero.  On the
success path the private key bytes in guest memory are overwritten with
zeros just before the deferred deallocations run. -/
def sign {σ : Type} (g : Guest σ) (closed : Bool) (s : σ)
    (key : List Nat) (message : List Nat) :
    (Option (List Nat) × Option GoErr) × σ × List Event :=
  if closed then ((none, some .noModule), s, []) else
  if key.length ≠ PRIVATE_KEY_SIZE then
    ((none, some (.msg "invalid private key size")), s, []) else
  let msgLen := message.length
  match g.allocate s msgLen with
  | (.errc _, s1) =>
    ((none, some (.msg "failed to allocate memory for message")), s1, [.alloc msgLen none])
  | (.trap p, s1) => ((none, some (recoverConv p)), s1, [.alloc msgLen none])
  | (.ok [], s1) => ((none, some .indexOutOfRange), s1, [.alloc msgLen none])
  | (.ok (messagePtr :: _), s1) =>
    let ds1 : List DeferAct := [.dealloc messagePtr 0 true]
    let w := g.memWrite s1 (messagePtr % U32) message
    let ev2 : List Event :=
      [.alloc msgLen (some messagePtr), .write (messagePtr % U32) message w.1]
    if !w.1 then
      withDefers g w.2 ev2 ds1
        ((none : Option (List Nat)), some (GoErr.msg "failed to write formatted message to memory for signing"))
    else
      match g.allocate w.2 PRIVATE_KEY_SIZE with
      | (.errc _, s2) =>
        withDefers g s2 (ev2 ++ [.alloc PRIVATE_KEY_SIZE none]) ds1
          ((none : Option (List Nat)), some (GoErr.msg "failed to allocate memory for private key"))
      | (.trap p, s2) =>
        withDefers g s2 (ev2 ++ [.alloc PRIVATE_KEY_SIZE none]) ds1
          ((none : Option (List Nat)), some (recoverConv p))
      | (.ok [], s2) =>
        withDefers g s2 (ev2 ++ [.alloc PRIVATE_KEY_SIZE none]) ds1
          ((none : Option (List Nat)), some GoErr.indexOutOfRange)
      | (.ok (privateKeyPtr :: _), s2) =>
        let ds2 : List DeferAct := .dealloc privateKeyPtr 0 true :: ds1
        let w2 := g.memWrite s2 (privateKeyPtr % U32) key
        let ev3 := ev2 ++ [.alloc PRIVATE_KEY_SIZE (some privateKeyPtr),
          .write (privateKeyPtr % U32) key w2.1]
        if !w2.1 then
          withDefers g w2.2 ev3 ds2
            ((none : Option (List Nat)), some (GoErr.msg "failed to write private key to memory for signing"))
        else
          let args := [privateKeyPtr, PRIVATE_KEY_SIZE, messagePtr, msgLen]
          let ev4 := ev3 ++ [.call .sign args]
          match g.callFn w2.2 .sign args with
          | (.errc _, s3) =>
            withDefers g s3 ev4 ds2
              ((none : Option (List Nat)), some (GoErr.msg "failed to sign message"))
          | (.trap p, s3) =>
            withDefers g s3 ev4 ds2 ((none : Option (List Nat)), some (recoverConv p))
          | (.ok [], s3) =>
            withDefers g s3 ev4 ds2
              ((none : Option (List Nat)), some (GoErr.msg "internal error when signing message: empty return"))
          | (.ok (w0 :: _), s3) =>
            let sigPtr := w0 % U32
            let sigLen := w0 / U32 % U32
            if sigPtr = 0 ∨ sigLen = 0 then
              withDefers g s3 ev4 ds2
                ((none : Option (List Nat)), some (GoErr.msg "internal error when signing message"))
            else
              let rOk := g.readOk s3 sigPtr sigLen
              let ev5 := ev4 ++ [.read sigPtr sigLen rOk]
              if !rOk then
                withDefers g s3 ev5 ds2
                  ((none : Option (List Nat)), some (GoErr.msg "failed to sign message"))
              else
                let sig := readList (g.mem s3) sigPtr sigLen
                let wz := g.memWrite s3 (privateKeyPtr % U32) (List.replicate PRIVATE_KEY_SIZE 0)
                let ev6 := ev5 ++ [.write (privateKeyPtr % U32) (List.replicate PRIVATE_KEY_SIZE 0) wz.1]
                withDefers g wz.2 ev6 (.dealloc sigPtr 0 true :: ds2)
                  (some sig, (none : Option GoErr))

end SessionByte

/-- Host-side wrapper state: runtimeActive is the guard flag set to false by
Close; runtimeNil records the runtime field being set to nil. -/
structure WrapperState where
  runtimeActive : Bool
  runtimeNil : Bool
  deriving DecidableEq

/-- Outcome of instantiating a session module: instantiation failure, or an
instance together with the list of required export names that are missing. -/
inductive InstResult
  | instErr
  | inst (missing : List String)
  deriving DecidableEq

namespace Wrapper

/-- wrapper.go NewSession.  Some () stands for a successfully created
session value. -/
def NewSession (w : WrapperState) (r : InstResult) :
    (Option Unit × Option GoErr) × WrapperState :=
  if !w.runtimeActive || w.runtimeNil then
    ((none, some .noRuntime), { w with runtimeNil := true })
  else
    match r with
    | .instErr => ((none, some (.msg "failed to instantiate wrapper session")), w)
    | .inst missing =>
      if missing.isEmpty then ((some (), none), w)
      else ((none, some (.msg "missing required wasm exports")), w)

/-- wrapper.go Close: closes the runtime and clears the active guard. -/
def Close (w : WrapperState) : WrapperState :=
  { w with runtimeActive := false }

end Wrapper

/-- session.go Close: after it the module reports IsClosed, so the closed
flag of the session is true; nothing ever resets it. -/
def sessionClose (_closed : Bool) : Bool := true

/-- Guest output buffer base address used by the modelled guest. -/
def OUTP : Nat := 1048576

/-- Modelled from the spec: the textual rendering of one message byte used
by the modelled guest format entry point.  The spec leaves the Leo struct
text of format_message opaque and specifies the pair of guest entry points
only through the round-trip law and the newline-bearing textual output, so
each byte is rendered as three fixed-width decimal digit characters. -/
def enc3 (b : Nat) : List Nat := [48 + b / 100, 48 + b / 10 % 10, 48 + b % 10]

/-- The newline-free text of the modelled formatted message. -/
def encFlat : List Nat → List Nat
  | [] => []
  | b :: m => enc3 b ++ encFlat m

/-- Modelled from the spec: the guest format_message output text, a digit
rendering of the message bytes with a newline after each rendered byte
(the spec states the raw guest output contains newline characters that the
host removes). -/
def fmtEnc : List Nat → List Nat
  | [] => []
  | b :: m => enc3 b ++ (10 :: fmtEnc m)

/-- Modelled from the spec: the guest formatted_message_to_bytes decoder on
newline-free text: decode consecutive three-digit groups. -/
def dec3 : List Nat → List Nat
  | x :: y :: z :: rest => ((x - 48) * 100 + (y - 48) * 10 + (z - 48)) :: dec3 rest
  | _ => []

/-- Modelled from the spec: a guest for which format_message and
formatted_message_to_bytes satisfy the contract the spec states for the
guest module (the WASM bytecode itself is not part of the host sources).
State is the guest linear memory.  The allocator returns address 1; the
format and recover entry points read their operand from memory, place
their output text at OUTP and return a packed pointer-and-length word;
the recover entry point ignores newline layout. -/
def rtGuest : Guest (Nat → Nat) where
  allocate s _ := (.ok [1], s)
  deallocate s _ _ := s
  callFn s fn args :=
    match fn, args with
    | .formatMessage, [p, len, _] =>
      let enc := fmtEnc (readList s p len)
      (.ok [OUTP + U32 * enc.length], writeList s OUTP enc)
    | .recoverMessage, [p, len] =>
      let dec := dec3 (stripNL (readList s p len))
      (.ok [OUTP + U32 * dec.length], writeList s OUTP dec)
    | _, _ => (.errc (.msg "not modelled"), s)
  memWrite s p data := (true, writeList s p data)
  mem s := s
  readOk _ _ _ := true

/-- A guest whose every interaction succeeds trivially; used to exercise
paths that perform no guest interaction. -/
def gTriv : Guest Unit where
  allocate s _ := (.ok [1], s)
  deallocate s _ _ := s
  callFn s _ _ := (.errc (.msg "unused"), s)
  memWrite s _ _ := (true, s)
  mem _ _ := 0
  readOk _ _ _ := true

/-- A guest whose allocation and entry point calls all fault with a string
payload. -/
def gPanic : Guest Unit where
  allocate s _ := (.trap (.str "boom"), s)
  deallocate s _ _ := s
  callFn s _ _ := (.trap (.str "boom"), s)
  memWrite s _ _ := (true, s)
  mem _ _ := 0
  readOk _ _ _ := true

/-- A guest on which the string-variant NewPrivateKey succeeds: the key
call returns pointer 5, the address call pointer 9, and every memory byte
reads as 65. -/
def gOkKeys : Guest Unit where
  allocate s _ := (.ok [1], s)
  deallocate s _ _ := s
  callFn s fn _ :=
    match fn with
    | .newPrivateKey => (.ok [5], s)
    | .getAddress => (.ok [9], s)
    | _ => (.errc (.msg "unused"), s)
  memWrite s _ _ := (true, s)
  mem _ _ := 65
  readOk _ _ _ := true

/-- A guest on which the byte-variant NewPrivateKey succeeds but reports a
key length of 10 rather than 59 (pointer 5, length 10; address pointer 7,
length 63). -/
def gByteLen10 : Guest Unit where
  allocate s _ := (.ok [1], s)
  deallocate s _ _ := s
  callFn s fn _ :=
    match fn with
    | .newPrivateKey => (.ok [5 + 10 * U32], s)
    | .getAddress => (.ok [7 + 63 * U32], s)
    | _ => (.errc (.msg "unused"), s)
  memWrite s _ _ := (true, s)
  mem _ _ := 65
  readOk _ _ _ := true

/-- A guest whose format entry point returns the packed word 2 to the 32:
pointer field 0, length field 1; reads at address 0 succeed and return
byte 77. -/
def gPtrZero : Guest Unit where
  allocate s _ := (.ok [1], s)
  deallocate s _ _ := s
  callFn s fn _ :=
    match fn with
    | .formatMessage => (.ok [U32], s)
    | _ => (.errc (.msg "unused"), s)
  memWrite s _ _ := (true, s)
  mem _ _ := 77
  readOk _ _ _ := true

/-- A guest whose format entry point returns a valid packed word (pointer
OUTP, length 5) but whose memory then refuses the read of that buffer. -/
def gLeak : Guest Unit where
  allocate s _ := (.ok [1], s)
  deallocate s _ _ := s
  callFn s fn _ :=
    match fn with
    | .formatMessage => (.ok [OUTP + 5 * U32], s)
    | _ => (.errc (.msg "unused"), s)
  memWrite s _ _ := (true, s)
  mem _ _ := 0
  readOk _ _ _ := false

/-- A guest whose allocator hands out distinct pointers (100, 200, ...) and
whose sign entry point fails with a guest-reported error. -/
def gSignFail : Guest Nat where
  allocate n _ := (.ok [100 * (n + 1)], n + 1)
  deallocate s _ _ := s
  callFn s fn _ :=
    match fn with
    | .sign => (.errc (.msg "sign failed"), s)
    | _ => (.errc (.msg "unused"), s)
  memWrite s _ _ := (true, s)
  mem _ _ := 0
  readOk _ _ _ := true

/-- A guest on which the byte-variant NewPrivateKey succeeds with the
expected lengths but every linear-memory write (including the best-effort
zeroization write) reports failure. -/
def gZeroFail : Guest Unit where
  allocate s _ := (.ok [1], s)
  deallocate s _ _ := s
  callFn s fn _ :=
    match fn with
    | .newPrivateKey => (.ok [5 + 59 * U32], s)
    | .getAddress => (.ok [100 + 63 * U32], s)
    | _ => (.errc (.msg "unused"), s)
  memWrite s _ _ := (false, s)
  mem _ _ := 65
  readOk _ _ _ := true

/-- A guest whose key and sign entry points return packed words with a
non-zero pointer field and a zero length field. -/
def gLenZero : Guest Unit where
  allocate s _ := (.ok [1], s)
  deallocate s _ _ := s
  callFn s fn _ :=
    match fn with
    | .newPrivateKey => (.ok [5], s)
    | .sign => (.ok [7], s)
    | _ => (.errc (.msg "unused"), s)
  memWrite s _ _ := (true, s)
  mem _ _ := 0
  readOk _ _ _ := true

/-- For a call outcome, the decoded pointer field of its first result word
when the call returned words, none otherwise. -/
def okPtr : COut → Option Nat
  | .ok (w :: _) => some (w % U32)
  | _ => none

/-- Scan a trace forward: true unless a deallocation of p occurs before any
write of len zero bytes at p. -/
def zeroPrecedes (p len : Nat) : List Event → Bool
  | [] => true
  | .write q data _ :: rest =>
    (q == p && data == List.replicate len 0) || zeroPrecedes p len rest
  | .dealloc q _ _ :: rest => if q == p then false else zeroPrecedes p len rest
  | _ :: rest => zeroPrecedes p len rest

/-- Count of allocation events that returned pointer p. -/
def allocOkCount (t : List Event) (p : Nat) : Nat :=
  t.countP (fun e => match e with
    | .alloc _ (some q) => q == p
    | _ => false)

/-- Count of deallocations of pointer p issued through deallocateSafe. -/
def safeDeallocCount (t : List Event) (p : Nat) : Nat :=
  t.countP (fun e => match e with
    | .dealloc q _ true => q == p
    | _ => false)

/-- Count of successful linear-memory reads (each read in the embedded
string-variant operations targets a guest-produced result buffer). -/
def readOkCount (t : List Event) : Nat :=
  t.countP (fun e => match e with
    | .read _ _ ok => ok
    | _ => false)

/-- Count of deallocations issued directly (not through deallocateSafe);
the string-variant operations use these exactly for guest-produced result
buffers. -/
def unsafeDeallocCount (t : List Event) : Nat :=
  t.countP (fun e => match e with
    | .dealloc _ _ safe => !safe
    | _ => false)

/-- Count of deallocations of pointer p with any hint and either call site. -/
def deallocCount (t : List Event) (p : Nat) : Nat :=
  t.countP (fun e => match e with
    | .dealloc q _ _ => q == p
    | _ => false)

/-- A guest on which Sign succeeds: the allocator returns pointer 1, the
sign entry point returns pointer 3 with length 216, and every memory byte
reads as 9. -/
def gSignOk : Guest Unit where
  allocate s _ := (.ok [1], s)
  deallocate s _ _ := s
  callFn s fn _ :=
    match fn with
    | .sign => (.ok [3 + 216 * U32], s)
    | _ => (.errc (.msg "unused"), s)
  memWrite s _ _ := (true, s)
  mem _ _ := 9
  readOk _ _ _ := true

/-- C3: for every message m and chunk count c with c less than 1 or greater
than 32, or with the message longer than c times 512 bytes, FormatMessage
on an open session fails with the input-validation error and performs no
guest interaction at all: the state is unchanged and the trace is empty. -/
theorem formatMessage_invalid_input_no_guest_call :
    (∀ (σ : Type) (g : Guest σ) (s : σ) (m : List Nat) (c : Int),
      c < 1 ∨ c > 32 →
      SessionStr.formatMessage g false s m c =
        ((none, some (.msg "target number of chunks must be between 1 and 32")), s, [])) ∧
    (∀ (σ : Type) (g : Guest σ) (s : σ) (m : List Nat) (c : Int),
      1 ≤ c → c ≤ 32 → (m.length : Int) > c * 512 →
      SessionStr.formatMessage g false s m c =
        ((none, some (.msg ("target formatted message length must be at most " ++
          toString (c * (MESSAGE_FORMAT_BLOCK_SIZE : Int)) ++ " (" ++
          toString c ++ " chunks)"))), s, [])) := by
  constructor
  · intro σ g s m c h
    have hc : c < 1 ∨ c > (MAX_FORMAT_MESSAGE_CHUNKS : Int) := by
      simp only [MAX_FORMAT_MESSAGE_CHUNKS]; exact_mod_cast h
    simp only [SessionStr.formatMessage]
    rw [if_neg (by simp), if_pos hc]
  · intro σ g s m c h1 h2 h3
    have hc : ¬(c < 1 ∨ c > (MAX_FORMAT_MESSAGE_CHUNKS : Int)) := by
      simp only [MAX_FORMAT_MESSAGE_CHUNKS]; push_cast; omega
    have hl : (m.length : Int) > c * (MESSAGE_FORMAT_BLOCK_SIZE : Int) := by
      simp only [MESSAGE_FORMAT_BLOCK_SIZE]; exact_mod_cast h3
    simp only [SessionStr.formatMessage]
    rw [if_neg (by simp), if_neg hc, if_pos hl]

/-- Witness for C3 at chunk count 0 and at a 513-byte message with 1 chunk. -/
theorem formatMessage_invalid_input_no_guest_call_witness :
    SessionStr.formatMessage gTriv false () [5] 0 =
      ((none, some (.msg "target number of chunks must be between 1 and 32")), (), []) ∧
    SessionStr.formatMessage gTriv false () (List.replicate 513 0) 1 =
      ((none, some (.msg ("target formatted message length must be at most " ++
        toString ((1 : Int) * (MESSAGE_FORMAT_BLOCK_SIZE : Int)) ++ " (" ++
        toString (1 : Int) ++ " chunks)"))), (), []) :=
  ⟨formatMessage_invalid_input_no_guest_call.1 Unit gTriv () [5] 0 (Or.inl (by decide)),
   formatMessage_invalid_input_no_guest_call.2 Unit gTriv () (List.replicate 513 0) 1
     (by decide) (by decide) (by norm_num [List.length_replicate, MESSAGE_FORMAT_BLOCK_SIZE])⟩

/-- C4: in both session variants, Sign with a key whose length is not 59
fails with the invalid-key-size error with an empty trace: in particular
the allocate entry point is never invoked. -/
theorem sign_bad_key_no_alloc :
    (∀ (σ : Type) (g : Guest σ) (s : σ) (key m : List Nat),
      key.length ≠ 59 →
      SessionStr.sign g false s key m =
        ((none, some (.msg "invalid private key size")), s, [])) ∧
    (∀ (σ : Type) (g : Guest σ) (s : σ) (key m : List Nat),
      key.length ≠ 59 →
      SessionByte.sign g false s key m =
        ((none, some (.msg "invalid private key size")), s, [])) := by
  constructor
  · intro σ g s key m h
    have hk : key.length ≠ PRIVATE_KEY_SIZE := by simpa [PRIVATE_KEY_SIZE] using h
    simp only [SessionStr.sign]
    rw [if_neg (by simp), if_pos hk]
  · intro σ g s key m h
    have hk : key.length ≠ PRIVATE_KEY_SIZE := by simpa [PRIVATE_KEY_SIZE] using h
    simp only [SessionByte.sign]
    rw [if_neg (by simp), if_pos hk]

/-- Witness for C4 with a 3-byte key. -/
theorem sign_bad_key_no_alloc_witness :
    SessionStr.sign gTriv false () [1, 2, 3] [9] =
      ((none, some (.msg "invalid private key size")), (), []) ∧
    SessionByte.sign gTriv false () [1, 2, 3] [9] =
      ((none, some (.msg "invalid private key size")), (), []) :=
  ⟨(sign_bad_key_no_alloc.1 Unit gTriv () [1, 2, 3] [9] (by decide)),
   (sign_bad_key_no_alloc.2 Unit gTriv () [1, 2, 3] [9] (by decide))⟩

/-- C6: a closed runtime rejects every session creation with the
runtime-closed error, closing is terminal for the wrapper (no operation
resets the active flag), a closed session rejects every one of the six
public operations with the session-closed error immediately, with an
unchanged guest state and an empty trace, and session closing is terminal. -/
theorem closed_states_reject :
    (∀ (w : WrapperState) (r : InstResult), w.runtimeActive = false →
      Wrapper.NewSession w r = ((none, some .noRuntime), { w with runtimeNil := true })) ∧
    (∀ w : WrapperState, (Wrapper.Close w).runtimeActive = false) ∧
    (∀ (w : WrapperState) (r : InstResult),
      ((Wrapper.NewSession w r).2).runtimeActive = w.runtimeActive) ∧
    (∀ b : Bool, sessionClose b = true) ∧
    (∀ (σ : Type) (g : Guest σ) (s : σ),
      SessionStr.newPrivateKey g true s = ((none, none, some .noModule), s, [])) ∧
    (∀ (σ : Type) (g : Guest σ) (s : σ) (m : List Nat) (c : Int),
      SessionStr.formatMessage g true s m c = ((none, some .noModule), s, [])) ∧
    (∀ (σ : Type) (g : Guest σ) (s : σ) (f : List Nat),
      SessionStr.recoverMessage g true s f = ((none, some .noModule), s, [])) ∧
    (∀ (σ : Type) (g : Guest σ) (s : σ) (m : List Nat),
      SessionStr.hashMessage g true s m = ((none, some .noModule), s, [])) ∧
    (∀ (σ : Type) (g : Guest σ) (s : σ) (m : List Nat),
      SessionStr.hashMessageToString g true s m = ((none, some .noModule), s, [])) ∧
    (∀ (σ : Type) (g : Guest σ) (s : σ) (key m : List Nat),
      SessionStr.sign g true s key m = ((none, some .noModule), s, [])) := by
  refine ⟨?_, ?_, ?_, ?_, ?_, ?_, ?_, ?_, ?_, ?_⟩
  · intro w r h
    simp [Wrapper.NewSession, h]
  · intro w
    simp [Wrapper.Close]
  · intro w r
    simp only [Wrapper.NewSession]
    split
    · rfl
    · split
      · rfl
      · split <;> rfl
  · intro b
    rfl
  · intro σ g s; rfl
  · intro σ g s m c; rfl
  · intro σ g s f; rfl
  · intro σ g s m; rfl
  · intro σ g s m; rfl
  · intro σ g s key m; rfl

/-- Witness for C6 on a closed wrapper and a closed session. -/
theorem closed_states_reject_witness :
    Wrapper.NewSession ⟨false, false⟩ (.inst []) =
      ((none, some .noRuntime), ⟨false, true⟩) ∧
    SessionStr.formatMessage gTriv true () [1] 1 = ((none, some .noModule), (), []) :=
  ⟨closed_states_reject.1 ⟨false, false⟩ (.inst []) rfl,
   closed_states_reject.2.2.2.2.2.1 Unit gTriv () [1] 1⟩

/-- C7: a fault raised while invoking a guest function is intercepted and
converted to an ordinary error return with the primary result cleared:
a text payload becomes an error with that text, an error payload is
returned unchanged, any other payload becomes the generic unknown-failure
error.  Shown for the fault conversion table and for a faulting guest call
in each of the six public operations of the string variant. -/
theorem guest_fault_converted :
    (∀ s : String, recoverConv (.str s) = .msg s) ∧
    (∀ e : GoErr, recoverConv (.err e) = e) ∧
    recoverConv .other = .msg "unknown panic" ∧
    (∀ (σ : Type) (g : Guest σ) (s s1 : σ) (p : FaultVal),
      g.callFn s .newPrivateKey [] = (.trap p, s1) →
      (SessionStr.newPrivateKey g false s).1 = (none, none, some (recoverConv p))) ∧
    (∀ (σ : Type) (g : Guest σ) (s s1 : σ) (m : List Nat) (c : Int) (p : FaultVal),
      1 ≤ c → c ≤ 32 → (m.length : Int) ≤ c * 512 →
      g.allocate s m.length = (.trap p, s1) →
      (SessionStr.formatMessage g false s m c).1 = (none, some (recoverConv p))) ∧
    (∀ (σ : Type) (g : Guest σ) (s s1 : σ) (f : List Nat) (p : FaultVal),
      g.allocate s f.length = (.trap p, s1) →
      (SessionStr.recoverMessage g false s f).1 = (none, some (recoverConv p))) ∧
    (∀ (σ : Type) (g : Guest σ) (s s1 : σ) (m : List Nat) (p : FaultVal),
      g.allocate s m.length = (.trap p, s1) →
      (SessionStr.hashMessage g false s m).1 = (none, some (recoverConv p))) ∧
    (∀ (σ : Type) (g : Guest σ) (s s1 : σ) (m : List Nat) (p : FaultVal),
      g.allocate s m.length = (.trap p, s1) →
      (SessionStr.hashMessageToString g false s m).1 = (none, some (recoverConv p))) ∧
    (∀ (σ : Type) (g : Guest σ) (s s1 : σ) (key m : List Nat) (p : FaultVal),
      key.length = 59 →
      g.allocate s m.length = (.trap p, s1) →
      (SessionStr.sign g false s key m).1 = (none, some (recoverConv p))) := by
  refine ⟨fun _ => rfl, fun _ => rfl, rfl, ?_, ?_, ?_, ?_, ?_, ?_⟩
  · intro σ g s s1 p h
    simp [SessionStr.newPrivateKey, h]
  · intro σ g s s1 m c p h1 h2 h3 hA
    have hc : ¬(c < 1 ∨ c > (MAX_FORMAT_MESSAGE_CHUNKS : Int)) := by
      simp only [MAX_FORMAT_MESSAGE_CHUNKS]; push_cast; omega
    have hl : ¬((m.length : Int) > c * (MESSAGE_FORMAT_BLOCK_SIZE : Int)) := by
      simp only [MESSAGE_FORMAT_BLOCK_SIZE]; push_cast; omega
    simp only [SessionStr.formatMessage]
    rw [if_neg (by simp), if_neg hc, if_neg hl]
    simp [hA]
  · intro σ g s s1 f p hA
    simp [SessionStr.recoverMessage, hA]
  · intro σ g s s1 m p hA
    simp [SessionStr.hashMessage, hA]
  · intro σ g s s1 m p hA
    simp [SessionStr.hashMessageToString, hA]
  · intro σ g s s1 key m p hk hA
    have hk2 : ¬(key.length ≠ PRIVATE_KEY_SIZE) := by simp [PRIVATE_KEY_SIZE, hk]
    simp only [SessionStr.sign]
    rw [if_neg (by simp), if_neg hk2]
    simp [hA]

/-- Witness for C7: the faulting guest gPanic makes every operation return
the converted fault text with a cleared result. -/
theorem guest_fault_converted_witness :
    (SessionStr.newPrivateKey gPanic false ()).1 = (none, none, some (.msg "boom")) ∧
    (SessionStr.formatMessage gPanic false () [8] 1).1 = (none, some (.msg "boom")) ∧
    (SessionStr.recoverMessage gPanic false () [8]).1 = (none, some (.msg "boom")) ∧
    (SessionStr.hashMessage gPanic false () [8]).1 = (none, some (.msg "boom")) ∧
    (SessionStr.hashMessageToString gPanic false () [8]).1 = (none, some (.msg "boom")) ∧
    (SessionStr.sign gPanic false () (List.replicate 59 107) [8]).1 = (none, some (.msg "boom")) :=
  ⟨guest_fault_converted.2.2.2.1 Unit gPanic () () (.str "boom") rfl,
   guest_fault_converted.2.2.2.2.1 Unit gPanic () () [8] 1 (.str "boom")
     (by decide) (by decide) (by decide) rfl,
   guest_fault_converted.2.2.2.2.2.1 Unit gPanic () () [8] (.str "boom") rfl,
   guest_fault_converted.2.2.2.2.2.2.1 Unit gPanic () () [8] (.str "boom") rfl,
   guest_fault_converted.2.2.2.2.2.2.2.1 Unit gPanic () () [8] (.str "boom") rfl,
   guest_fault_converted.2.2.2.2.2.2.2.2 Unit gPanic () () (List.replicate 59 107) [8]
     (.str "boom") (by simp) rfl⟩

/-- C10: in the byte-key variant, a packed result word with a non-zero
pointer field but a zero length field is rejected: NewPrivateKey returns
the invalid-pointer error with no key and no address (and performs no
deallocation, as nothing was acquired), and Sign returns the
internal-signing error with no signature. -/
theorem byte_variant_zero_length_rejected :
    (∀ (σ : Type) (g : Guest σ) (s s1 : σ) (w : Nat),
      g.callFn s .newPrivateKey [] = (.ok [w], s1) →
      w % U32 ≠ 0 → w / U32 % U32 = 0 →
      SessionByte.newPrivateKey g false s =
        ((none, none, some (.msg "failed to create new private key: invalid pointer")),
          s1, [.call .newPrivateKey []])) ∧
    (∀ (σ : Type) (g : Guest σ) (s sa s2 s3 s4 s5 : σ) (key m : List Nat)
        (p1 p2 w : Nat),
      key.length = 59 →
      g.allocate s m.length = (.ok [p1], sa) →
      g.memWrite sa (p1 % U32) m = (true, s2) →
      g.allocate s2 PRIVATE_KEY_SIZE = (.ok [p2], s3) →
      g.memWrite s3 (p2 % U32) key = (true, s4) →
      g.callFn s4 .sign [p2, PRIVATE_KEY_SIZE, p1, m.length] = (.ok [w], s5) →
      w % U32 ≠ 0 → w / U32 % U32 = 0 →
      (SessionByte.sign g false s key m).1 =
        (none, some (.msg "internal error when signing message"))) := by
  constructor
  · intro σ g s s1 w hC hp hl
    simp [SessionByte.newPrivateKey, hC, hp, hl]
  · intro σ g s sa s2 s3 s4 s5 key m p1 p2 w hk hA1 hW1 hA2 hW2 hC hp hl
    have hk2 : ¬(key.length ≠ PRIVATE_KEY_SIZE) := by simp [PRIVATE_KEY_SIZE, hk]
    simp only [SessionByte.sign]
    rw [if_neg (by simp), if_neg hk2]
    simp [hA1, hW1, hA2, hW2, hC, hp, hl, withDefers, runDefers]

/-- Witness for C10 on the guest gLenZero, whose key word is 5 (pointer 5,
length 0) and whose sign word is 7 (pointer 7, length 0). -/
theorem byte_variant_zero_length_rejected_witness :
    SessionByte.newPrivateKey gLenZero false () =
      ((none, none, some (.msg "failed to create new private key: invalid pointer")),
        (), [.call .newPrivateKey []]) ∧
    (SessionByte.sign gLenZero false () (List.replicate 59 107) [50]).1 =
      (none, some (.msg "internal error when signing message")) :=
  ⟨byte_variant_zero_length_rejected.1 Unit gLenZero () () 5 rfl (by decide) (by decide),
   byte_variant_zero_length_rejected.2 Unit gLenZero () () () () () () (List.replicate 59 107)
     [50] 1 1 7 (by simp) rfl rfl rfl rfl rfl (by decide) (by decide)⟩

/-- C1 (failing input): a packed result word with pointer field 0 and
length field 1 (the word 2 to the 32) is not rejected by FormatMessage:
the whole-word zero test passes because the word is non-zero, the decoded
pointer 0 and length 1 drive a memory read at address 0 that succeeds, and
the operation returns that buffer as a successful result instead of an
error. -/
theorem formatMessage_zero_pointer_word_not_rejected :
    (SessionStr.formatMessage gPtrZero false () [104] 1).1 = (some [77], none) ∧
    U32 % U32 = 0 ∧ U32 / U32 % U32 = 1 := by
  refine ⟨?_, by decide, by decide⟩
  rfl

/-- The Go return value of an exit is unaffected by the deferred
deallocations. -/
theorem withDefers_fst {σ α : Type} (g : Guest σ) (s : σ) (pre : List Event)
    (ds : List DeferAct) (r : α) : (withDefers g s pre ds r).1 = r := rfl

/-- A read of n bytes returns exactly n bytes. -/
theorem readList_length (f : Nat → Nat) (p n : Nat) : (readList f p n).length = n := by
  induction n generalizing p with
  | zero => rfl
  | succ n ih => simp [readList, ih]

/-- C2 counterexample: on the guest gByteLen10, whose key result word
reports pointer 5 and length 10, the byte-variant NewPrivateKey succeeds
and returns a 10-byte key, not a 59-byte one. -/
theorem newPrivateKeyB_short_key_success :
    (SessionByte.newPrivateKey gByteLen10 false ()).1 =
      (some (List.replicate 10 65), some (List.replicate 63 65), none) ∧
    (List.replicate (10 : Nat) 65).length ≠ 59 := by
  exact ⟨rfl, by decide⟩

/-- C2 as amended: on success the string-variant NewPrivateKey always
returns a key of exactly 59 bytes and an address of exactly 63 bytes
(it reads fixed-size buffers); the byte-variant returns a key and an
address whose lengths are exactly the length fields the guest reported in
its packed result words, with a mismatch against 59 or 63 only logged. -/
theorem newPrivateKey_key_lengths :
    (∀ (σ : Type) (g : Guest σ) (s st : σ) (k a : List Nat) (tr : List Event),
      SessionStr.newPrivateKey g false s = ((some k, some a, none), st, tr) →
      k.length = 59 ∧ a.length = 63) ∧
    (∀ (σ : Type) (g : Guest σ) (s s1 s2 : σ) (w w2 : Nat),
      g.callFn s .newPrivateKey [] = (.ok [w], s1) →
      w % U32 ≠ 0 → w / U32 % U32 ≠ 0 →
      g.readOk s1 (w % U32) (w / U32 % U32) = true →
      g.callFn s1 .getAddress [w % U32, w / U32 % U32] = (.ok [w2], s2) →
      w2 % U32 ≠ 0 → w2 / U32 % U32 ≠ 0 →
      g.readOk s2 (w2 % U32) (w2 / U32 % U32) = true →
      ∃ k a, (SessionByte.newPrivateKey g false s).1 = (some k, some a, none) ∧
        k.length = w / U32 % U32 ∧ a.length = w2 / U32 % U32) := by
  constructor
  · intro σ g s st k a tr h
    simp only [SessionStr.newPrivateKey] at h
    rw [if_neg (by simp)] at h
    split at h
    · simp at h
    · simp at h
    · simp at h
    · split at h
      · simp at h
      · split at h
        · simp at h
        · split at h
          · simp [withDefers] at h
          · simp [withDefers] at h
          · simp [withDefers] at h
          · split at h
            · simp [withDefers] at h
            · split at h
              · simp [withDefers] at h
              · simp only [withDefers] at h
                have hk := congrArg (fun x => x.1.1) h
                have ha := congrArg (fun x => x.1.2.1) h
                simp at hk ha
                subst hk
                subst ha
                constructor
                · simp [readList_length, PRIVATE_KEY_SIZE]
                · simp [readList_length, ADDRESS_SIZE]
  · intro σ g s s1 s2 w w2 hC1 hp1 hl1 hR1 hC2 hp2 hl2 hR2
    refine ⟨readList (g.mem s1) (w % U32) (w / U32 % U32),
      readList (g.mem s2) (w2 % U32) (w2 / U32 % U32), ?_,
      readList_length _ _ _, readList_length _ _ _⟩
    simp only [SessionByte.newPrivateKey]
    rw [if_neg (by simp)]
    simp [hC1, hp1, hl1, hR1, hC2, hp2, hl2, hR2, withDefers]

/-- Witness for C2: a successful string-variant run with 59- and 63-byte
outputs, and a successful byte-variant run whose outputs have the guest
reported lengths 59 and 63. -/
theorem newPrivateKey_key_lengths_witness :
    (List.replicate 59 (65 : Nat)).length = 59 ∧ (List.replicate 63 (65 : Nat)).length = 63 ∧
    ∃ k a, (SessionByte.newPrivateKey gZeroFail false ()).1 = (some k, some a, none) ∧
      k.length = (5 + 59 * U32) / U32 % U32 ∧ a.length = (100 + 63 * U32) / U32 % U32 := by
  have h1 := newPrivateKey_key_lengths.1 Unit gOkKeys () ()
    (List.replicate 59 65) (List.replicate 63 65)
    [.call .newPrivateKey [], .read 5 59 true, .call .getAddress [5, 59],
     .read 9 63 true, .dealloc 9 63 false, .dealloc 5 59 false] (by rfl)
  have h2 := newPrivateKey_key_lengths.2 Unit gZeroFail () () () (5 + 59 * U32)
    (100 + 63 * U32) rfl (by decide) (by decide) rfl rfl (by decide) (by decide) rfl
  exact ⟨h1.1, h1.2, h2⟩

/-- C8 counterexample: on the guest gLeak the format call returns a valid
packed word (pointer 1048576, length 5), so the host takes ownership of
that guest-produced buffer, but the subsequent read of it fails and the
operation returns without any deallocation of pointer 1048576: the
deferred release of the result buffer is only registered after a
successful read. -/
theorem formatMessage_result_leak_on_read_fail :
    SessionStr.formatMessage gLeak false () [104] 1 =
      ((none, some (.msg "failed to convert message to a field")), (),
        [.alloc 1 (some 1), .write 1 [104] true, .call .formatMessage [1, 1, 1],
         .read 1048576 5 false, .dealloc 1 0 true]) ∧
    deallocCount
      [.alloc 1 (some 1), .write 1 [104] true, .call .formatMessage [1, 1, 1],
       .read 1048576 5 false, .dealloc 1 0 true] 1048576 = 0 := by
  exact ⟨rfl, by decide⟩

/-- C9 counterexample: on the guest gSignFail the byte-variant Sign writes
the key to guest pointer 200 and the sign call then fails; the deferred
cleanup deallocates the key region exactly once but no zeroing write of
that region ever occurs, so the key bytes are released without being
overwritten. -/
theorem signB_key_dealloc_without_zeroize :
    SessionByte.sign gSignFail false 0 (List.replicate 59 107) [50] =
      ((none, some (.msg "failed to sign message")), 2,
        [.alloc 1 (some 100), .write 100 [50] true, .alloc 59 (some 200),
         .write 200 (List.replicate 59 107) true, .call .sign [200, 59, 100, 1],
         .dealloc 200 0 true, .dealloc 100 0 true]) ∧
    zeroPrecedes 200 59
      [.alloc 1 (some 100), .write 100 [50] true, .alloc 59 (some 200),
       .write 200 (List.replicate 59 107) true, .call .sign [200, 59, 100, 1],
       .dealloc 200 0 true, .dealloc 100 0 true] = false ∧
    deallocCount
      [.alloc 1 (some 100), .write 100 [50] true, .alloc 59 (some 200),
       .write 200 (List.replicate 59 107) true, .call .sign [200, 59, 100, 1],
       .dealloc 200 0 true, .dealloc 100 0 true] 200 = 1 := by
  exact ⟨rfl, by decide, by decide⟩

/-- C8 as amended: in every public operation of the string variant, over
every guest behaviour and every exit path, each pointer returned by a
successful allocate call is released by exactly one deallocateSafe call
(pointers counted with multiplicity), and each guest-produced result
buffer whose read succeeded is released by exactly one direct deallocate
call; a result buffer whose read fails is not released (the leak shown by
the counterexample), so ownership of a result region is only discharged
on paths where its read succeeds. -/
theorem alloc_dealloc_balance :
    (∀ (σ : Type) (g : Guest σ) (s : σ),
      (∀ p, allocOkCount ((SessionStr.newPrivateKey g false s).2.2) p =
        safeDeallocCount ((SessionStr.newPrivateKey g false s).2.2) p) ∧
      readOkCount ((SessionStr.newPrivateKey g false s).2.2) =
        unsafeDeallocCount ((SessionStr.newPrivateKey g false s).2.2)) ∧
    (∀ (σ : Type) (g : Guest σ) (s : σ) (m : List Nat) (c : Int),
      (∀ p, allocOkCount ((SessionStr.formatMessage g false s m c).2.2) p =
        safeDeallocCount ((SessionStr.formatMessage g false s m c).2.2) p) ∧
      readOkCount ((SessionStr.formatMessage g false s m c).2.2) =
        unsafeDeallocCount ((SessionStr.formatMessage g false s m c).2.2)) ∧
    (∀ (σ : Type) (g : Guest σ) (s : σ) (f : List Nat),
      (∀ p, allocOkCount ((SessionStr.recoverMessage g false s f).2.2) p =
        safeDeallocCount ((SessionStr.recoverMessage g false s f).2.2) p) ∧
      readOkCount ((SessionStr.recoverMessage g false s f).2.2) =
        unsafeDeallocCount ((SessionStr.recoverMessage g false s f).2.2)) ∧
    (∀ (σ : Type) (g : Guest σ) (s : σ) (m : List Nat),
      (∀ p, allocOkCount ((SessionStr.hashMessage g false s m).2.2) p =
        safeDeallocCount ((SessionStr.hashMessage g false s m).2.2) p) ∧
      readOkCount ((SessionStr.hashMessage g false s m).2.2) =
        unsafeDeallocCount ((SessionStr.hashMessage g false s m).2.2)) ∧
    (∀ (σ : Type) (g : Guest σ) (s : σ) (m : List Nat),
      (∀ p, allocOkCount ((SessionStr.hashMessageToString g false s m).2.2) p =
        safeDeallocCount ((SessionStr.hashMessageToString g false s m).2.2) p) ∧
      readOkCount ((SessionStr.hashMessageToString g false s m).2.2) =
        unsafeDeallocCount ((SessionStr.hashMessageToString g false s m).2.2)) ∧
    (∀ (σ : Type) (g : Guest σ) (s : σ) (key m : List Nat),
      (∀ p, allocOkCount ((SessionStr.sign g false s key m).2.2) p =
        safeDeallocCount ((SessionStr.sign g false s key m).2.2) p) ∧
      readOkCount ((SessionStr.sign g false s key m).2.2) =
        unsafeDeallocCount ((SessionStr.sign g false s key m).2.2)) := by
  refine ⟨?_, ?_, ?_, ?_, ?_, ?_⟩
  · intro σ g s
    simp only [SessionStr.newPrivateKey]
    rw [if_neg (by simp)]
    refine ⟨fun p => ?_, ?_⟩ <;>
    · repeat' split
      all_goals
        simp_all [allocOkCount, safeDeallocCount, readOkCount, unsafeDeallocCount,
          withDefers, runDefers, List.countP_cons, List.countP_append, Nat.add_comm]
  · intro σ g s m c
    simp only [SessionStr.formatMessage]
    rw [if_neg (by simp)]
    refine ⟨fun p => ?_, ?_⟩ <;>
    · repeat' split
      all_goals
        simp_all [allocOkCount, safeDeallocCount, readOkCount, unsafeDeallocCount,
          withDefers, runDefers, List.countP_cons, List.countP_append, Nat.add_comm]
  · intro σ g s f
    simp only [SessionStr.recoverMessage]
    rw [if_neg (by simp)]
    refine ⟨fun p => ?_, ?_⟩ <;>
    · repeat' split
      all_goals
        simp_all [allocOkCount, safeDeallocCount, readOkCount, unsafeDeallocCount,
          withDefers, runDefers, List.countP_cons, List.countP_append, Nat.add_comm]
  · intro σ g s m
    simp only [SessionStr.hashMessage]
    rw [if_neg (by simp)]
    refine ⟨fun p => ?_, ?_⟩ <;>
    · repeat' split
      all_goals
        simp_all [allocOkCount, safeDeallocCount, readOkCount, unsafeDeallocCount,
          withDefers, runDefers, List.countP_cons, List.countP_append, Nat.add_comm]
  · intro σ g s m
    simp only [SessionStr.hashMessageToString]
    rw [if_neg (by simp)]
    refine ⟨fun p => ?_, ?_⟩ <;>
    · repeat' split
      all_goals
        simp_all [allocOkCount, safeDeallocCount, readOkCount, unsafeDeallocCount,
          withDefers, runDefers, List.countP_cons, List.countP_append, Nat.add_comm]
  · intro σ g s key m
    simp only [SessionStr.sign]
    rw [if_neg (by simp)]
    refine ⟨fun p => ?_, ?_⟩ <;>
    · repeat' split
      all_goals
        simp_all [allocOkCount, safeDeallocCount, readOkCount, unsafeDeallocCount,
          withDefers, runDefers, List.countP_cons, List.countP_append, Nat.add_comm]

/-- C9 as amended: in the byte-key variant, (1) NewPrivateKey overwrites
the guest region holding the generated key with zero bytes before every
deallocation of that region, on every path on which it is deallocated
(provided the address buffer the guest returns is a different region);
(2) Sign overwrites the key region with zero bytes before it is
deallocated on the success path only — on failure paths after the key was
written the region is deallocated without zeroization, as the
counterexample shows; (3) a failure of the zeroing write is ignored and
does not abort the operation or discard its primary result. -/
theorem key_zeroized_before_dealloc :
    (∀ (σ : Type) (g : Guest σ) (s s1 s2 : σ) (w : Nat) (out : COut),
      g.callFn s .newPrivateKey [] = (.ok [w], s1) →
      w % U32 ≠ 0 → w / U32 % U32 ≠ 0 →
      g.callFn s1 .getAddress [w % U32, w / U32 % U32] = (out, s2) →
      okPtr out ≠ some (w % U32) →
      zeroPrecedes (w % U32) (w / U32 % U32)
        ((SessionByte.newPrivateKey g false s).2.2) = true) ∧
    (∀ (σ : Type) (g : Guest σ) (s sa sb sc sd se : σ) (key m : List Nat)
      (p1 p2 w : Nat),
      key.length = 59 →
      g.allocate s m.length = (.ok [p1], sa) →
      g.memWrite sa (p1 % U32) m = (true, sb) →
      g.allocate sb PRIVATE_KEY_SIZE = (.ok [p2], sc) →
      g.memWrite sc (p2 % U32) key = (true, sd) →
      g.callFn sd .sign [p2, PRIVATE_KEY_SIZE, p1, m.length] = (.ok [w], se) →
      w % U32 ≠ 0 → w / U32 % U32 ≠ 0 →
      g.readOk se (w % U32) (w / U32 % U32) = true →
      p2 < U32 →
      zeroPrecedes p2 PRIVATE_KEY_SIZE
        ((SessionByte.sign g false s key m).2.2) = true) ∧
    SessionByte.newPrivateKey gZeroFail false () =
      ((some (List.replicate 59 65), some (List.replicate 63 65), none), (),
       [.call .newPrivateKey [], .read 5 59 true, .call .getAddress [5, 59],
        .read 100 63 true, .dealloc 100 0 true,
        .write 5 (List.replicate 59 0) false, .dealloc 5 0 true]) := by
  refine ⟨?_, ?_, rfl⟩
  · intro σ g s s1 s2 w out hC1 hp hl hC2 hop
    simp only [SessionByte.newPrivateKey]
    rw [if_neg (by simp), hC1]
    simp only []
    rw [if_neg (by simp [hp, hl])]
    repeat' split
    all_goals simp_all [zeroPrecedes, withDefers, runDefers, okPtr]
    all_goals
      (rcases hC2 with ⟨hA, hB⟩
       subst hA
       simp [okPtr] at hop
       exact fun hh => hop (by rw [hh]))
  · intro σ g s sa sb sc sd se key m p1 p2 w hk hA1 hW1 hA2 hW2 hC hp hl hR hP2
    have hmod : p2 % U32 = p2 := Nat.mod_eq_of_lt hP2
    simp only [SessionByte.sign]
    rw [if_neg (by simp), if_neg (by simp [hk, PRIVATE_KEY_SIZE])]
    rw [hA1]
    simp only [hW1]
    rw [if_neg (by simp), hA2]
    simp only [hW2]
    rw [if_neg (by simp), hC]
    simp only []
    rw [if_neg (by simp [hp, hl])]
    rw [hR]
    simp [zeroPrecedes, withDefers, runDefers, hmod]

/-- Witness for C9 on the guests gByteLen10 (NewPrivateKey path) and
gSignOk (Sign success path). -/
theorem key_zeroized_before_dealloc_witness :
    zeroPrecedes ((5 + 10 * U32) % U32) ((5 + 10 * U32) / U32 % U32)
      ((SessionByte.newPrivateKey gByteLen10 false ()).2.2) = true ∧
    zeroPrecedes 1 PRIVATE_KEY_SIZE
      ((SessionByte.sign gSignOk false () (List.replicate 59 107) [50]).2.2) = true :=
  ⟨key_zeroized_before_dealloc.1 Unit gByteLen10 () () () (5 + 10 * U32)
      (.ok [7 + 63 * U32]) rfl (by decide) (by decide) rfl (by decide),
   key_zeroized_before_dealloc.2.1 Unit gSignOk () () () () () ()
      (List.replicate 59 107) [50] 1 1 (3 + 216 * U32) (by simp) rfl rfl rfl rfl rfl
      (by decide) (by decide) rfl (by decide)⟩

/-- Addresses strictly below the write base are untouched by a write. -/
theorem writeList_apply_lt (xs : List Nat) (f : Nat → Nat) (p q : Nat) (h : q < p) :
    writeList f p xs q = f q := by
  induction xs generalizing f p with
  | nil => rfl
  | cons x xs ih =>
    rw [writeList, ih _ _ (by omega), Function.update_noteq (by omega)]

/-- Reading back a just-written range returns the written bytes. -/
theorem readList_writeList (xs : List Nat) (f : Nat → Nat) (p : Nat) :
    readList (writeList f p xs) p xs.length = xs := by
  induction xs generalizing f p with
  | nil => rfl
  | cons x xs ih =>
    rw [List.length_cons, readList, writeList]
    rw [writeList_apply_lt _ _ _ _ (by omega), Function.update_same, ih]

/-- The modelled raw formatted text has four bytes per message byte. -/
theorem fmtEnc_length (m : List Nat) : (fmtEnc m).length = 4 * m.length := by
  induction m with
  | nil => rfl
  | cons b m ih => simp [fmtEnc, enc3, ih]; omega

/-- The newline-free formatted text has three bytes per message byte. -/
theorem encFlat_length (m : List Nat) : (encFlat m).length = 3 * m.length := by
  induction m with
  | nil => rfl
  | cons b m ih => simp [encFlat, enc3, ih]; omega

/-- Digit renderings contain no newline byte. -/
theorem stripNL_enc3 (b : Nat) : stripNL (enc3 b) = enc3 b := by
  simp [stripNL, enc3]
  omega

/-- Removing the newlines from the raw formatted text leaves exactly the
newline-free formatted text. -/
theorem stripNL_fmtEnc (m : List Nat) : stripNL (fmtEnc m) = encFlat m := by
  induction m with
  | nil => rfl
  | cons b m ih =>
    have h3 := stripNL_enc3 b
    simp only [fmtEnc, encFlat, stripNL, List.filter_append] at *
    simp [h3, ih]

/-- The newline-free formatted text is unchanged by newline removal. -/
theorem stripNL_encFlat (m : List Nat) : stripNL (encFlat m) = encFlat m := by
  induction m with
  | nil => rfl
  | cons b m ih =>
    have h3 := stripNL_enc3 b
    simp only [encFlat, stripNL, List.filter_append] at *
    simp [h3, ih]

/-- Decoding one three-digit group recovers the encoded byte. -/
theorem dec3_enc3_cons (b : Nat) (l : List Nat) : dec3 (enc3 b ++ l) = b :: dec3 l := by
  simp only [enc3, List.cons_append, List.nil_append, dec3, List.cons.injEq]
  constructor
  · omega
  · rfl

/-- The modelled guest decoder inverts the newline-free formatted text. -/
theorem dec3_encFlat (m : List Nat) : dec3 (encFlat m) = m := by
  induction m with
  | nil => rfl
  | cons b m ih => rw [encFlat, dec3_enc3_cons, ih]

/-- C5: over the spec-modelled guest, for every message m and chunk count
c with 1 at most c at most 32 and the message at most c times 512 bytes,
FormatMessage succeeds and returns exactly the raw guest output with its
newline characters removed, and RecoverMessage on that output (from any
guest memory state, in particular the one FormatMessage left behind)
returns exactly m: the round trip is the identity. -/
theorem format_recover_round_trip (m : List Nat) (c : Int) (s t : Nat → Nat)
    (h1 : 1 ≤ c) (h2 : c ≤ 32) (h3 : (m.length : Int) ≤ c * 512) :
    (SessionStr.formatMessage rtGuest false s m c).1 =
      (some (stripNL (fmtEnc m)), none) ∧
    (SessionStr.recoverMessage rtGuest false t (stripNL (fmtEnc m))).1 =
      (some m, none) := by
  rw [stripNL_fmtEnc]
  have hm : m.length ≤ 16384 := by omega
  have h1m : (1 : Nat) % U32 = 1 := by decide
  constructor
  · have hc : ¬(c < 1 ∨ c > (MAX_FORMAT_MESSAGE_CHUNKS : Int)) := by
      simp only [MAX_FORMAT_MESSAGE_CHUNKS]; push_cast; omega
    have hl : ¬((m.length : Int) > c * (MESSAGE_FORMAT_BLOCK_SIZE : Int)) := by
      simp only [MESSAGE_FORMAT_BLOCK_SIZE]; push_cast; omega
    have hL := fmtEnc_length m
    have hz : OUTP + U32 * (fmtEnc m).length ≠ 0 := by
      simp only [OUTP, U32]; omega
    have hdiv : (OUTP + U32 * (fmtEnc m).length) / U32 % U32 = (fmtEnc m).length := by
      simp only [OUTP, U32] at hL ⊢; omega
    have hmod : (OUTP + U32 * (fmtEnc m).length) % U32 = OUTP := by
      simp only [OUTP, U32]; omega
    simp only [SessionStr.formatMessage]
    rw [if_neg (by simp), if_neg hc, if_neg hl]
    simp [rtGuest, h1m, readList_writeList, hz, hdiv, hmod, withDefers, stripNL_fmtEnc]
  · have hL := encFlat_length m
    have hz : OUTP + U32 * m.length ≠ 0 := by
      simp only [OUTP, U32]; omega
    have hdiv : (OUTP + U32 * m.length) / U32 % U32 = m.length := by
      simp only [OUTP, U32]; omega
    have hmod : (OUTP + U32 * m.length) % U32 = OUTP := by
      simp only [OUTP, U32]; omega
    simp only [SessionStr.recoverMessage]
    rw [if_neg (by simp)]
    simp [rtGuest, h1m, readList_writeList, stripNL_encFlat, dec3_encFlat,
      hz, hdiv, hmod, withDefers]

/-- Witness for C5 on a message containing a newline byte and a byte above
127, with one chunk. -/
theorem format_recover_round_trip_witness :
    (SessionStr.formatMessage rtGuest false (fun _ => 0) [72, 10, 200] 1).1 =
      (some (stripNL (fmtEnc [72, 10, 200])), none) ∧
    (SessionStr.recoverMessage rtGuest false (fun _ => 0)
      (stripNL (fmtEnc [72, 10, 200]))).1 = (some [72, 10, 200], none) :=
  format_recover_round_trip [72, 10, 200] 1 (fun _ => 0) (fun _ => 0)
    (by decide) (by decide) (by decide)
